import Mathlib

/-!
Shallow embedding of the RFID telemetry agent: `rfid_device_client.py`
(publisher) and `ws_receiver.py` (WebSocket subscriber).

Modelling conventions:
* Python floats are modelled as exact rationals (`ℚ`); `round(x, n)` is
  modelled with Mathlib's `round` to the nearest multiple of `10⁻ⁿ`
  (Python uses banker's rounding at exact ties, which differs from
  `round` only at ties and is irrelevant to the range properties here).
* The filesystem is explicit: `os.path.exists` becomes a predicate
  `present : String → Bool`; the CSV file is an optional list of lines.
* `random.uniform(a, b)` is modelled by passing the unit draw `u` as an
  argument; `random.randint(lo, hi)` by `randint lo hi seed`, which maps
  an arbitrary seed onto the inclusive range exactly as the library does.
* Network nondeterminism is an explicit behaviour value: `ConnBehavior`
  describes what happens during `IoTClient.connect` (an exception, no
  CONNACK before the 10 s poll deadline, or a CONNACK with reason code
  `rc` arriving after a given number of 0.1 s poll intervals), and
  `PublishAttempt` describes one `client.publish` call (the return code
  of the enqueue call, or an exception) together with whether the broker
  ever acknowledges the message (PUBACK).
* The `while True` main loop is modelled by the list of per-cycle events
  it reacts to (`CycleEvent`): a cycle body that completes, a cycle body
  that raises, or a `KeyboardInterrupt`.
-/

/-- Configuration constant `CLIENT_ID` (rfid_device_client.py, line 17). -/
def CLIENT_ID : String := "RFID-Device-01"

/-- Publish topic `smaket/iot/data/<CLIENT_ID>` (line 18). -/
def TOPIC : String := "smaket/iot/data/" ++ CLIENT_ID

/-- Root CA certificate path (line 21). -/
def CA_PATH : String := "D:\\IOTCoreCert\\AmazonRootCA1.pem"

/-- Device certificate path (line 22). -/
def CERT_PATH : String :=
  "D:\\IOTCoreCert\\069ea350def9675c00a739d5432d7a37b56cfcd5d8a72781156458a30028e8d7-certificate.pem.crt"

/-- Private key path (line 23). -/
def KEY_PATH : String :=
  "D:\\IOTCoreCert\\069ea350def9675c00a739d5432d7a37b56cfcd5d8a72781156458a30028e8d7-private.pem.key"

/-- Sensor temperature range `TEMP_RANGE` (line 32). -/
def TEMP_RANGE : ℚ × ℚ := (22, 30)

/-- Sensor humidity range `HUMIDITY_RANGE` (line 33). -/
def HUMIDITY_RANGE : ℚ × ℚ := (35, 65)

/-- `PUBLISH_INTERVAL` in seconds (line 34). -/
def PUBLISH_INTERVAL : Nat := 5

/-- paho-mqtt success code compared against `result.rc` in `publish_message`. -/
def MQTT_ERR_SUCCESS : Nat := 0

/-- The three `(path, description)` credential checks of `validate_files`
(lines 51-55). -/
def file_checks : List (String × String) :=
  [(CA_PATH, "Root CA certificate"),
   (CERT_PATH, "Device certificate"),
   (KEY_PATH, "Private key")]

/-- The `missing_files` list accumulated by `validate_files` (lines 57-59):
one entry `"<desc>: <path>"` for every artifact whose path does not exist. -/
def missing_files (present : String → Bool) : List String :=
  (file_checks.filter (fun pd => !present pd.1)).map (fun pd => pd.2 ++ ": " ++ pd.1)

/-- `validate_files` (lines 48-75): raises `FileNotFoundError` with a message
listing every missing artifact when any is absent, returns normally otherwise. -/
def validate_files (present : String → Bool) : Except String Unit :=
  if (missing_files present).isEmpty then Except.ok ()
  else Except.error ("MISSING FILES:\n" ++ String.intercalate "\n" (missing_files present))

/-- One data row written by `save_to_csv` (lines 213-218). -/
structure CsvRow where
  timestamp : String
  device_id : String
  temperature : ℚ
  humidity : ℚ
deriving DecidableEq

/-- A line of the CSV log: the header row or a data row. -/
inductive CsvLine where
  | header (cols : List String)
  | data (row : CsvRow)
deriving DecidableEq

/-- The header columns written by `setup_csv` (line 83). -/
def csv_header_cols : List String := ["timestamp", "device_id", "temperature", "humidity"]

/-- `setup_csv` (lines 77-89): creates the file with the header row when it
does not exist, leaves an existing file untouched. -/
def setup_csv : Option (List CsvLine) → List CsvLine
  | none => [CsvLine.header csv_header_cols]
  | some lines => lines

/-- The dict returned by `generate_sensor_data` (lines 203-206). -/
structure SensorData where
  temperature : ℚ
  humidity : ℚ
deriving DecidableEq

/-- The JSON payload built by `create_payload` (lines 224-230). -/
structure Payload where
  device_id : String
  temperature : ℚ
  humidity : ℚ
  timestamp : String
  message_id : String
deriving DecidableEq

/-- `save_to_csv` (lines 208-218): appends one row with the payload's
timestamp, device_id, temperature and humidity. -/
def save_to_csv (data : Payload) (file : List CsvLine) : List CsvLine :=
  file ++ [CsvLine.data ⟨data.timestamp, data.device_id, data.temperature, data.humidity⟩]

/-- `random.uniform(lo, hi)` = `lo + (hi-lo) * u` for a unit draw `u`. -/
def uniform (lo hi u : ℚ) : ℚ := lo + (hi - lo) * u

/-- Python `round(x, ndigits)`: round to the nearest multiple of
`10 ^ (-ndigits)` (ties excepted, see file header). -/
def roundTo (ndigits : Nat) (x : ℚ) : ℚ := (round (x * 10 ^ ndigits) : ℚ) / 10 ^ ndigits

/-- `generate_sensor_data` (lines 198-206): temperature drawn uniformly from
`TEMP_RANGE` rounded to 2 places, humidity from `HUMIDITY_RANGE` rounded to
1 place; `u v` are the two unit draws. -/
def generate_sensor_data (u v : ℚ) : SensorData :=
  { temperature := roundTo 2 (uniform TEMP_RANGE.1 TEMP_RANGE.2 u)
    humidity := roundTo 1 (uniform HUMIDITY_RANGE.1 HUMIDITY_RANGE.2 v) }

/-- `random.randint(lo, hi)`: an arbitrary draw mapped onto the inclusive
range `[lo, hi]`. -/
def randint (lo hi seed : Nat) : Nat := lo + seed % (hi + 1 - lo)

/-- The message id format string of `create_payload` (line 229):
`msg_<epoch-seconds>_<random-draw>`. -/
def mkMessageId (epoch r : Nat) : String :=
  "msg_" ++ toString epoch ++ "_" ++ toString r

/-- `create_payload` (lines 222-230): copies the sensor values unchanged and
stamps the payload with an ISO timestamp and a fresh message id built from
the current epoch second and `random.randint(1000, 9999)`. -/
def create_payload (device_id : String) (sd : SensorData) (epoch : Nat)
    (isoTimestamp : String) (seed : Nat) : Payload :=
  { device_id := device_id
    temperature := sd.temperature
    humidity := sd.humidity
    timestamp := isoTimestamp
    message_id := mkMessageId epoch (randint 1000 9999 seed) }

/-- The `IoTClient` connection state: the shared `is_connected` flag set by
the MQTT callbacks (line 95). -/
structure IoTClient where
  is_connected : Bool
deriving DecidableEq

/-- `IoTClient.__init__` (lines 93-95): starts disconnected. -/
def IoTClient.init : IoTClient := { is_connected := false }

/-- `on_connect` (lines 97-113): the CONNACK callback sets `is_connected`
to true exactly when the reason code is 0. -/
def IoTClient.on_connect (c : IoTClient) (rc : Nat) : IoTClient :=
  if rc = 0 then { c with is_connected := true } else { c with is_connected := false }

/-- `on_disconnect` (lines 115-121): clears `is_connected` for every
disconnect, expected or not. -/
def IoTClient.on_disconnect (c : IoTClient) (_rc : Nat) : IoTClient :=
  { c with is_connected := false }

/-- What the network does during one `connect()` call: the TLS setup or TCP
connect raises; no CONNACK arrives before the poll deadline; or a CONNACK
with reason code `rc` arrives after `tenths` 0.1 s poll intervals. -/
inductive ConnBehavior where
  | raises (msg : String)
  | silent
  | connack (tenths : Nat) (rc : Nat)
deriving DecidableEq

/-- The 10-second wait of `connect` (line 159), in 0.1 s poll intervals. -/
def CONNECT_TIMEOUT_TENTHS : Nat := 100

/-- `IoTClient.connect` (lines 131-171), called once on a fresh client: any
exception is caught and becomes `false`; otherwise the 10 s poll loop
returns true exactly when the `on_connect` callback has set `is_connected`
(which requires a CONNACK with rc = 0 arriving before the deadline); a
timeout raises internally and is caught, yielding `false`. Returns the
client state at return time and the boolean result. -/
def IoTClient.connect (b : ConnBehavior) : IoTClient × Bool :=
  match b with
  | ConnBehavior.raises _ => (IoTClient.init, false)
  | ConnBehavior.silent => (IoTClient.init, false)
  | ConnBehavior.connack t rc =>
      if t < CONNECT_TIMEOUT_TENTHS then
        let c := IoTClient.init.on_connect rc
        (c, c.is_connected)
      else (IoTClient.init, false)

/-- One `client.publish` attempt: the `rc` returned by the enqueue call
(`none` models the call raising), and whether the broker ever sends a
PUBACK for the message. -/
structure PublishAttempt where
  enqueue_rc : Option Nat
  puback_received : Bool
deriving DecidableEq

/-- Result of `publish_message`: the returned boolean and how many times the
transport's `publish` was invoked. -/
structure PublishResult where
  success : Bool
  transport_publishes : Nat
deriving DecidableEq

/-- `publish_message` (lines 173-188): returns false without touching the
transport when not connected; otherwise invokes `client.publish` once and
returns whether its return code is `MQTT_ERR_SUCCESS` (an exception is
caught and becomes false). The PUBACK is never consulted (the `on_publish`
callback, lines 123-125, only logs). -/
def publish_message (c : IoTClient) (a : PublishAttempt) : PublishResult :=
  if c.is_connected = false then { success := false, transport_publishes := 0 }
  else
    match a.enqueue_rc with
    | none => { success := false, transport_publishes := 1 }
    | some rc => { success := rc == MQTT_ERR_SUCCESS, transport_publishes := 1 }

/-- Mutable state carried across main-loop cycles: the CSV file contents and
`message_count`. -/
structure CycleState where
  csv : List CsvLine
  message_count : Nat
deriving DecidableEq

/-- The publish-and-record step of one main-loop cycle (lines 260-267):
publish the payload; only on success increment the counter and call
`save_to_csv`; on failure only a warning is logged. -/
def publish_cycle (c : IoTClient) (a : PublishAttempt) (p : Payload)
    (st : CycleState) : CycleState :=
  if (publish_message c a).success then
    { csv := save_to_csv p st.csv, message_count := st.message_count + 1 }
  else st

/-- What happens during one iteration of the `while True` loop
(lines 252-277): the body completes, the body raises some exception, or a
`KeyboardInterrupt` arrives. -/
inductive CycleEvent where
  | ok
  | exn (msg : String)
  | interrupt
deriving DecidableEq

/-- What the loop does after one iteration: sleep a number of seconds and
continue, or break out. -/
inductive LoopAction where
  | continueAfter (seconds : Nat)
  | stop
deriving DecidableEq

/-- The control flow of one `while True` iteration (lines 252-277): a
completed body sleeps `PUBLISH_INTERVAL` (line 270); `KeyboardInterrupt`
breaks (lines 272-274); any other exception is logged and also sleeps
`PUBLISH_INTERVAL` (lines 275-277). -/
def loop_step : CycleEvent → LoopAction
  | CycleEvent.ok => LoopAction.continueAfter PUBLISH_INTERVAL
  | CycleEvent.exn _ => LoopAction.continueAfter PUBLISH_INTERVAL
  | CycleEvent.interrupt => LoopAction.stop

/-- Runs the loop over a finite trace of cycle events; returns the number of
iterations entered and whether the loop exited via the interrupt `break`. -/
def run_loop : List CycleEvent → Nat × Bool
  | [] => (0, false)
  | e :: es =>
      match loop_step e with
      | LoopAction.stop => (1, true)
      | LoopAction.continueAfter _ =>
          let r := run_loop es
          (r.1 + 1, r.2)

/-- How the `main` function of the publisher ends. -/
inductive AgentExit where
  | credentialsMissing (msg : String)
  | connectFailedExit
  | ranLoop (cycles : Nat) (interrupted : Bool)
deriving DecidableEq

/-- Observable outcome of one run of `main`. -/
structure MainRun where
  exit : AgentExit
  connection_attempted : Bool
deriving DecidableEq

/-- `main` (lines 233-286): validate credentials (a `FileNotFoundError`
propagates to the fatal handler and the process ends without any network
action); then construct the client and call `connect` exactly once; if it
returns false, log and `return` (line 246) — there is no retry; otherwise
enter the publishing loop. -/
def main_flow (present : String → Bool) (b : ConnBehavior)
    (events : List CycleEvent) : MainRun :=
  match validate_files present with
  | Except.error m => { exit := AgentExit.credentialsMissing m, connection_attempted := false }
  | Except.ok _ =>
      let cr := IoTClient.connect b
      if cr.2 then
        let r := run_loop events
        { exit := AgentExit.ranLoop r.1 r.2, connection_attempted := true }
      else { exit := AgentExit.connectFailedExit, connection_attempted := true }

/-- One inbound event on the WebSocket stream of `ws_receiver.py`: a message,
or a transport error / unexpected close (which raises out of the
`async for`). -/
inductive WsEvent where
  | msg (s : String)
  | err (e : String)
deriving DecidableEq

/-- The `async for` consume loop of `ws_receiver.main` (lines 23-27): forward
messages in order until the stream ends or raises; an error aborts the loop
(returns the messages forwarded before it and the error flag). -/
def ws_receive : List WsEvent → List String × Bool
  | [] => ([], false)
  | WsEvent.msg s :: es =>
      let r := ws_receive es
      (s :: r.1, r.2)
  | WsEvent.err _ :: _ => ([], true)

/-- `ws_receiver.main` (lines 8-27): a single connection attempt; on failure
the exception is printed and the function returns (no reconnect); on success
the stream is consumed until it ends or errors, then the function returns. -/
def ws_main (connect_ok : Bool) (events : List WsEvent) : List String × Bool :=
  if connect_ok then ws_receive events else ([], true)

/-- A concrete payload used for closed instances of the theorems. -/
def sample_payload : Payload :=
  { device_id := CLIENT_ID
    temperature := 25
    humidity := 50
    timestamp := "2023-11-14T22:13:20Z"
    message_id := mkMessageId 1700000000 1017 }

/- ======================  THEOREMS  ====================== -/

/-- C1: the claim states that every event passed to the per-cycle publish
step causes exactly one durable CSV append regardless of delivery outcome,
and in particular that on a non-connected session or a failed publish the
event is still written (buffered), never zero appends. Counterexample: with
a disconnected client (and likewise with a connected client whose publish
call returns a non-success code) the cycle leaves the CSV file unchanged —
zero appends; the event is discarded. -/
theorem C1_counterexample :
    (publish_cycle IoTClient.init
        { enqueue_rc := some MQTT_ERR_SUCCESS, puback_received := true }
        sample_payload
        { csv := [CsvLine.header csv_header_cols], message_count := 0 }).csv
      = [CsvLine.header csv_header_cols] ∧
    (publish_cycle { is_connected := true }
        { enqueue_rc := some 1, puback_received := false }
        sample_payload
        { csv := [CsvLine.header csv_header_cols], message_count := 0 }).csv
      = [CsvLine.header csv_header_cols] := by
  constructor <;> rfl

/-- C1 (amended): a cycle appends exactly one CSV record when and only when
`publish_message` reports success; when the session is not connected or the
publish attempt fails, zero records are appended — the event is discarded,
not buffered. -/
theorem C1_amended_theorem (c : IoTClient) (a : PublishAttempt) (p : Payload)
    (st : CycleState) :
    ((publish_message c a).success = true →
      (publish_cycle c a p st).csv = save_to_csv p st.csv ∧
      (publish_cycle c a p st).csv.length = st.csv.length + 1) ∧
    ((publish_message c a).success = false →
      (publish_cycle c a p st).csv = st.csv) := by
  constructor
  · intro h
    constructor
    · simp [publish_cycle, h]
    · simp [publish_cycle, h, save_to_csv]
  · intro h
    simp [publish_cycle, h]

/-- C1 (witness): the amended theorem applied to a disconnected client. -/
theorem C1_amended_witness :
    (publish_cycle IoTClient.init
        { enqueue_rc := some MQTT_ERR_SUCCESS, puback_received := true }
        sample_payload { csv := [], message_count := 0 }).csv = [] :=
  (C1_amended_theorem IoTClient.init
      { enqueue_rc := some MQTT_ERR_SUCCESS, puback_received := true }
      sample_payload { csv := [], message_count := 0 }).2 rfl

/-- C2: the claim states a publish is reported successful only after the
broker's acknowledgment has been received. Counterexample: a connected
client whose `client.publish` enqueue call returns `MQTT_ERR_SUCCESS` but
for which no PUBACK is ever received still reports success — delivery is
marked on hand-off to the transport, not on acknowledgment. -/
theorem C2_counterexample :
    (publish_message { is_connected := true }
        { enqueue_rc := some MQTT_ERR_SUCCESS, puback_received := false }).success = true := by
  rfl

/-- C2 (amended): `publish_message` reports success exactly when the client
is connected and the transport's enqueue call returns `MQTT_ERR_SUCCESS`;
the result is independent of whether the broker ever acknowledges the
message (the `on_publish` callback only logs). -/
theorem C2_amended_theorem (c : IoTClient) (a : PublishAttempt) :
    ((publish_message c a).success = true ↔
      c.is_connected = true ∧ a.enqueue_rc = some MQTT_ERR_SUCCESS) ∧
    publish_message c a = publish_message c { a with puback_received := !a.puback_received } := by
  obtain ⟨conn⟩ := c
  obtain ⟨rc, pb⟩ := a
  cases conn <;> cases rc <;> simp [publish_message, MQTT_ERR_SUCCESS]

/-- C3: the claim states every recoverable connection error leads to an
exponential-backoff reconnect loop and the agent never terminates on such
an error. Counterexample: with all credential files present and a connect
attempt that times out without a CONNACK (a recoverable condition), `main`
returns after the single connect attempt — the process terminates with no
reconnect; the WebSocket receiver likewise exits when its connect fails. -/
theorem C3_counterexample :
    main_flow (fun _ => true) ConnBehavior.silent [] =
      { exit := AgentExit.connectFailedExit, connection_attempted := true } ∧
    ws_main false [] = ([], true) := by
  constructor <;> rfl

/-- C3 (amended): on any connection failure at startup (handshake error,
timeout, or broker rejection) the publisher terminates after its single
connect attempt with no reconnect or backoff loop; the WebSocket receiver
aborts its consume loop and exits on any stream error. -/
theorem C3_amended_theorem (present : String → Bool) (b : ConnBehavior)
    (events : List CycleEvent) (es : List WsEvent) (m : String) :
    (validate_files present = Except.ok () → (IoTClient.connect b).2 = false →
      main_flow present b events =
        { exit := AgentExit.connectFailedExit, connection_attempted := true }) ∧
    ws_receive (WsEvent.err m :: es) = ([], true) := by
  constructor
  · intro hv hc
    simp [main_flow, hv, hc]
  · rfl

/-- C3 (witness): the amended theorem applied to a TLS handshake failure. -/
theorem C3_amended_witness :
    main_flow (fun _ => true) (ConnBehavior.raises "TLS failure") [] =
      { exit := AgentExit.connectFailedExit, connection_attempted := true } :=
  (C3_amended_theorem (fun _ => true) (ConnBehavior.raises "TLS failure") [] [] "x").1
    rfl rfl

/-- C5: the claim states `connect()` either reports readiness within the
timeout or fails with a specific, non-generic error category.
Counterexample: a TLS handshake failure, a connect timeout with no CONNACK,
and a broker rejection (CONNACK with reason code 5, "not authorised") all
produce the identical generic result `(disconnected, false)` — no error
category distinguishes them (the rejection is even surfaced as a timeout
after the full 10 s wait). -/
theorem C5_counterexample :
    IoTClient.connect (ConnBehavior.raises "TLS handshake failed") =
      IoTClient.connect ConnBehavior.silent ∧
    IoTClient.connect (ConnBehavior.connack 0 5) =
      IoTClient.connect ConnBehavior.silent ∧
    IoTClient.connect ConnBehavior.silent = (IoTClient.init, false) := by
  refine ⟨rfl, ?_, rfl⟩
  rfl

/-- C5 (amended): `connect()` reports readiness (returns true) exactly when
an affirmative CONNACK with reason code 0 arrives within the 10-second
poll deadline — an opened socket alone is never enough; every failure
(exception, timeout, late or non-zero CONNACK) yields the single generic
result `(disconnected, false)` with no specific error category. -/
theorem C5_amended_theorem (b : ConnBehavior) :
    ((IoTClient.connect b).2 = true ↔
      ∃ t rc, b = ConnBehavior.connack t rc ∧ t < CONNECT_TIMEOUT_TENTHS ∧ rc = 0) ∧
    ((IoTClient.connect b).2 = false → IoTClient.connect b = (IoTClient.init, false)) := by
  cases b with
  | raises m => simp [IoTClient.connect]
  | silent => simp [IoTClient.connect]
  | connack t rc =>
      by_cases ht : t < CONNECT_TIMEOUT_TENTHS
      · by_cases hrc : rc = 0 <;>
          simp [IoTClient.connect, IoTClient.on_connect, IoTClient.init, ht, hrc]
      · simp [IoTClient.connect, ht]
        omega

/-- C5 (witness): the amended theorem applied to a CONNACK with reason code
0 that arrives only after the poll deadline. -/
theorem C5_amended_witness :
    IoTClient.connect (ConnBehavior.connack 200 0) = (IoTClient.init, false) :=
  (C5_amended_theorem (ConnBehavior.connack 200 0)).2 rfl

/-- C9: whenever `is_connected` is false — as on a fresh client, or after
any disconnect callback — `publish_message` returns false with zero
invocations of the transport's publish; a transport publish only ever
happens in the connected state. -/
theorem C9_theorem (c : IoTClient) (a : PublishAttempt) (rc : Nat) :
    publish_message IoTClient.init a = { success := false, transport_publishes := 0 } ∧
    publish_message (c.on_disconnect rc) a = { success := false, transport_publishes := 0 } ∧
    (c.is_connected = false →
      publish_message c a = { success := false, transport_publishes := 0 }) ∧
    ((publish_message c a).transport_publishes ≠ 0 → c.is_connected = true) := by
  obtain ⟨conn⟩ := c
  cases conn <;>
    simp [publish_message, IoTClient.init, IoTClient.on_disconnect]

/-- C9 (witness): the theorem applied to a disconnected client. -/
theorem C9_witness :
    publish_message { is_connected := false }
        { enqueue_rc := some MQTT_ERR_SUCCESS, puback_received := true }
      = { success := false, transport_publishes := 0 } :=
  (C9_theorem { is_connected := false }
      { enqueue_rc := some MQTT_ERR_SUCCESS, puback_received := true } 0).2.2.1 rfl

/-- C4: `validate_files` runs before any network action in `main`; when any
credential artifact is absent it fails with a message listing every missing
artifact (each missing artifact contributes its own entry, not just the
first) and `main` halts with no connection attempt; when all three are
present it succeeds. -/
theorem C4_theorem (present : String → Bool) (b : ConnBehavior)
    (events : List CycleEvent) (pd : String × String) :
    ((∃ q ∈ file_checks, present q.1 = false) →
      (main_flow present b events).connection_attempted = false ∧
      (main_flow present b events).exit =
        AgentExit.credentialsMissing
          ("MISSING FILES:\n" ++ String.intercalate "\n" (missing_files present))) ∧
    (pd ∈ file_checks → present pd.1 = false →
      (pd.2 ++ ": " ++ pd.1) ∈ missing_files present) ∧
    ((∀ q ∈ file_checks, present q.1 = true) → validate_files present = Except.ok ()) := by
  refine ⟨?_, ?_, ?_⟩
  · rintro ⟨q, hq, hmiss⟩
    have hmem : (q.2 ++ ": " ++ q.1) ∈ missing_files present :=
      List.mem_map.mpr ⟨q, List.mem_filter.mpr ⟨hq, by simp [hmiss]⟩, rfl⟩
    have hne : (missing_files present).isEmpty = false := by
      cases hlist : missing_files present with
      | nil => rw [hlist] at hmem; cases hmem
      | cons x xs => simp
    constructor <;> simp [main_flow, validate_files, hne]
  · intro hpd hmiss
    exact List.mem_map.mpr ⟨pd, List.mem_filter.mpr ⟨hpd, by simp [hmiss]⟩, rfl⟩
  · intro hall
    have h1 := hall (CA_PATH, "Root CA certificate") (by simp [file_checks])
    have h2 := hall (CERT_PATH, "Device certificate") (by simp [file_checks])
    have h3 := hall (KEY_PATH, "Private key") (by simp [file_checks])
    have hlist : missing_files present = [] := by
      simp only [missing_files, file_checks, List.filter_cons, List.filter_nil]
      simp [h1, h2, h3]
    unfold validate_files
    rw [hlist]
    rfl

/-- C4 (witness): the theorem applied to a filesystem with no files present. -/
theorem C4_witness :
    (main_flow (fun _ => false) ConnBehavior.silent []).connection_attempted = false ∧
    ("Root CA certificate" ++ ": " ++ CA_PATH) ∈ missing_files (fun _ => false) := by
  constructor
  · exact ((C4_theorem (fun _ => false) ConnBehavior.silent []
      (CA_PATH, "Root CA certificate")).1
      ⟨(CA_PATH, "Root CA certificate"), by simp [file_checks], rfl⟩).1
  · exact (C4_theorem (fun _ => false) ConnBehavior.silent []
      (CA_PATH, "Root CA certificate")).2.1 (by simp [file_checks]) rfl

/-- C6: the claim states the id scheme yields zero duplicate message ids for
any N ≥ 10,000 events in one process lifetime. Counterexample: among 10,000
generation events stamped with the same epoch second, the events at
positions 17 and 9017 (both valid `random.randint` draws) produce the
identical message id `msg_1700000000_1017` — the discriminator admits only
9000 values per second, so zero duplicates cannot be guaranteed. -/
theorem C6_counterexample :
    (17 : Nat) < 10000 ∧ (9017 : Nat) < 10000 ∧ (17 : Nat) ≠ 9017 ∧
    (create_payload CLIENT_ID ⟨25, 50⟩ 1700000000 "2023-11-14T22:13:20Z" 17).message_id =
      (create_payload CLIENT_ID ⟨25, 50⟩ 1700000000 "2023-11-14T22:13:20Z" 9017).message_id := by
  refine ⟨by norm_num, by norm_num, by norm_num, ?_⟩
  rfl

/-- C6 (amended): every generated message id has the format
`msg_<epoch-seconds>_<r>` with the random discriminator `r` in
[1000, 9999]; since only 9000 discriminator values exist, any 9001 events
stamped with the same epoch second contain two with the same message id,
so zero duplicates across N ≥ 10,000 events is not guaranteed by the
scheme. -/
theorem C6_amended_theorem :
    (∀ d sd epoch ts seed, (create_payload d sd epoch ts seed).message_id =
        mkMessageId epoch (randint 1000 9999 seed)) ∧
    (∀ seed, 1000 ≤ randint 1000 9999 seed ∧ randint 1000 9999 seed ≤ 9999) ∧
    (∀ (epoch : Nat) (draw : Fin 9001 → Nat), ∃ i j : Fin 9001, i ≠ j ∧
      mkMessageId epoch (randint 1000 9999 (draw i)) =
        mkMessageId epoch (randint 1000 9999 (draw j))) := by
  refine ⟨fun d sd epoch ts seed => rfl, fun seed => ?_, fun epoch draw => ?_⟩
  · have h : seed % 9000 < 9000 := Nat.mod_lt _ (by norm_num)
    unfold randint
    omega
  · have hcard : (Finset.Icc 1000 9999).card < (Finset.univ : Finset (Fin 9001)).card := by
      rw [Nat.card_Icc, Finset.card_univ, Fintype.card_fin]
      norm_num
    have hmaps : ∀ i ∈ (Finset.univ : Finset (Fin 9001)),
        randint 1000 9999 (draw i) ∈ Finset.Icc 1000 9999 := by
      intro i _
      have h : draw i % 9000 < 9000 := Nat.mod_lt _ (by norm_num)
      simp only [randint, Finset.mem_Icc]
      omega
    obtain ⟨i, _, j, _, hij, heq⟩ :=
      Finset.exists_ne_map_eq_of_card_lt_of_maps_to hcard hmaps
    exact ⟨i, j, hij, congrArg (mkMessageId epoch) heq⟩

/-- Folding `save_to_csv` over a list of payloads appends one data row per
payload, in order, after the existing file contents. -/
theorem foldl_save_to_csv (ps : List Payload) (file : List CsvLine) :
    ps.foldl (fun f p => save_to_csv p f) file =
      file ++ ps.map (fun p =>
        CsvLine.data ⟨p.timestamp, p.device_id, p.temperature, p.humidity⟩) := by
  induction ps generalizing file with
  | nil => simp
  | cons p ps ih =>
      rw [List.foldl_cons, ih, save_to_csv, List.append_assoc]
      rfl

/-- C7: on a fresh start with no existing log file, `setup_csv` creates the
log with the single header row naming timestamp, device_id, temperature,
humidity in that order, and any sequence of subsequent `save_to_csv`
appends keeps that header as the first line, before every data row. -/
theorem C7_theorem (ps : List Payload) :
    setup_csv none =
      [CsvLine.header ["timestamp", "device_id", "temperature", "humidity"]] ∧
    ps.foldl (fun f p => save_to_csv p f) (setup_csv none) =
      CsvLine.header ["timestamp", "device_id", "temperature", "humidity"] ::
        ps.map (fun p =>
          CsvLine.data ⟨p.timestamp, p.device_id, p.temperature, p.humidity⟩) := by
  refine ⟨rfl, ?_⟩
  rw [foldl_save_to_csv]
  rfl

/-- A loop trace without an interrupt runs every cycle and never stops. -/
theorem run_loop_no_interrupt (events : List CycleEvent)
    (h : ∀ x ∈ events, x ≠ CycleEvent.interrupt) :
    run_loop events = (events.length, false) := by
  induction events with
  | nil => rfl
  | cons e es ih =>
      have he := h e (by simp)
      have hes : ∀ x ∈ es, x ≠ CycleEvent.interrupt := fun x hx => h x (by simp [hx])
      cases e with
      | ok => simp [run_loop, loop_step, ih hes]
      | exn m => simp [run_loop, loop_step, ih hes]
      | interrupt => exact absurd rfl he

/-- If the loop stopped, the trace contains an interrupt. -/
theorem run_loop_stop_mem (events : List CycleEvent)
    (h : (run_loop events).2 = true) : CycleEvent.interrupt ∈ events := by
  induction events with
  | nil => cases h
  | cons e es ih =>
      cases e with
      | ok =>
          simp only [run_loop, loop_step] at h
          exact List.mem_cons_of_mem _ (ih h)
      | exn m =>
          simp only [run_loop, loop_step] at h
          exact List.mem_cons_of_mem _ (ih h)
      | interrupt => simp

/-- C8: a cycle whose body raises is handled like a completed cycle: the
loop sleeps the full (positive) configured interval and proceeds — never a
tight error-retry spin — and the loop stops exactly on the interrupt
signal: a trace without an interrupt runs all its cycles without stopping,
and a stopped loop implies an interrupt occurred. -/
theorem C8_theorem (e : CycleEvent) (events : List CycleEvent) (m : String) :
    loop_step (CycleEvent.exn m) = LoopAction.continueAfter PUBLISH_INTERVAL ∧
    0 < PUBLISH_INTERVAL ∧
    (e ≠ CycleEvent.interrupt →
      loop_step e = LoopAction.continueAfter PUBLISH_INTERVAL) ∧
    (loop_step e = LoopAction.stop ↔ e = CycleEvent.interrupt) ∧
    ((∀ x ∈ events, x ≠ CycleEvent.interrupt) →
      run_loop events = (events.length, false)) ∧
    ((run_loop events).2 = true → CycleEvent.interrupt ∈ events) := by
  refine ⟨rfl, by norm_num [PUBLISH_INTERVAL], ?_, ?_,
    run_loop_no_interrupt events, run_loop_stop_mem events⟩
  · intro h
    cases e <;> simp_all [loop_step]
  · cases e <;> simp [loop_step]

/-- C8 (witness): the theorem applied to a trace with one completed cycle
and one cycle whose body raises. -/
theorem C8_witness :
    run_loop [CycleEvent.ok, CycleEvent.exn "boom"] = (2, false) :=
  (C8_theorem CycleEvent.ok [CycleEvent.ok, CycleEvent.exn "boom"] "boom").2.2.2.2.1
    (by decide)

/-- `round` on ℚ is monotone. -/
theorem round_mono_q (x y : ℚ) (h : x ≤ y) : round x ≤ round y := by
  rw [round_eq, round_eq]
  exact Int.floor_mono (by linarith)

/-- Rounding to `n` decimal places keeps a value between integer-multiple
bounds of `10 ^ (-n)`. -/
theorem roundTo_bounds (n : Nat) (x : ℚ) (lo hi : ℤ)
    (hlo : (lo : ℚ) ≤ x * 10 ^ n) (hhi : x * 10 ^ n ≤ (hi : ℚ)) :
    (lo : ℚ) / 10 ^ n ≤ roundTo n x ∧ roundTo n x ≤ (hi : ℚ) / 10 ^ n := by
  have h1 : lo ≤ round (x * 10 ^ n) := by
    have h := round_mono_q ((lo : ℚ)) (x * 10 ^ n) hlo
    rwa [round_intCast] at h
  have h2 : round (x * 10 ^ n) ≤ hi := by
    have h := round_mono_q (x * 10 ^ n) ((hi : ℚ)) hhi
    rwa [round_intCast] at h
  have hp : (0 : ℚ) < 10 ^ n := by positivity
  unfold roundTo
  constructor
  · have hc : ((lo : ℚ)) ≤ ((round (x * 10 ^ n) : ℤ) : ℚ) := by exact_mod_cast h1
    gcongr
  · have hc : (((round (x * 10 ^ n) : ℤ)) : ℚ) ≤ (hi : ℚ) := by exact_mod_cast h2
    gcongr

/-- C10: for unit draws in [0, 1], the generated temperature lies in
[22, 30] and is an integer number of hundredths, the generated humidity
lies in [35, 65] and is an integer number of tenths, and `create_payload`
copies both values into the payload unchanged. -/
theorem C10_theorem (u v : ℚ) (hu0 : 0 ≤ u) (hu1 : u ≤ 1) (hv0 : 0 ≤ v) (hv1 : v ≤ 1) :
    (22 ≤ (generate_sensor_data u v).temperature ∧
      (generate_sensor_data u v).temperature ≤ 30 ∧
      ∃ z : ℤ, (generate_sensor_data u v).temperature = (z : ℚ) / 100) ∧
    (35 ≤ (generate_sensor_data u v).humidity ∧
      (generate_sensor_data u v).humidity ≤ 65 ∧
      ∃ z : ℤ, (generate_sensor_data u v).humidity = (z : ℚ) / 10) ∧
    (∀ d epoch ts seed,
      (create_payload d (generate_sensor_data u v) epoch ts seed).temperature =
        (generate_sensor_data u v).temperature ∧
      (create_payload d (generate_sensor_data u v) epoch ts seed).humidity =
        (generate_sensor_data u v).humidity) := by
  have ht := roundTo_bounds 2 (uniform TEMP_RANGE.1 TEMP_RANGE.2 u) 2200 3000
    (by simp only [uniform, TEMP_RANGE]; push_cast; nlinarith)
    (by simp only [uniform, TEMP_RANGE]; push_cast; nlinarith)
  have hh := roundTo_bounds 1 (uniform HUMIDITY_RANGE.1 HUMIDITY_RANGE.2 v) 350 650
    (by simp only [uniform, HUMIDITY_RANGE]; push_cast; nlinarith)
    (by simp only [uniform, HUMIDITY_RANGE]; push_cast; nlinarith)
  refine ⟨⟨?_, ?_, ?_⟩, ⟨?_, ?_, ?_⟩, fun d epoch ts seed => ⟨rfl, rfl⟩⟩
  · have h := ht.1
    simp only [generate_sensor_data]
    push_cast at h
    linarith [h]
  · have h := ht.2
    simp only [generate_sensor_data]
    push_cast at h
    linarith [h]
  · refine ⟨round (uniform TEMP_RANGE.1 TEMP_RANGE.2 u * 10 ^ 2), ?_⟩
    simp only [generate_sensor_data, roundTo]
    norm_num
  · have h := hh.1
    simp only [generate_sensor_data]
    push_cast at h
    linarith [h]
  · have h := hh.2
    simp only [generate_sensor_data]
    push_cast at h
    linarith [h]
  · refine ⟨round (uniform HUMIDITY_RANGE.1 HUMIDITY_RANGE.2 v * 10 ^ 1), ?_⟩
    simp only [generate_sensor_data, roundTo]
    norm_num

/-- C10 (witness): the theorem applied at the midpoint draws. -/
theorem C10_witness :
    22 ≤ (generate_sensor_data (1/2) (1/2)).temperature ∧
    (generate_sensor_data (1/2) (1/2)).temperature ≤ 30 :=
  ⟨((C10_theorem (1/2) (1/2) (by norm_num) (by norm_num) (by norm_num) (by norm_num)).1).1,
   ((C10_theorem (1/2) (1/2) (by norm_num) (by norm_num) (by norm_num) (by norm_num)).1).2.1⟩
